import Mathlib

/-!
Verification development for the MingJing sensitive-data detection pipeline.

Shallow embedding of:
- `presidio_analyzer/predefined_recognizers/country_specific/china/cn_id_card_recognizer.py`
- `presidio_analyzer/predefined_recognizers/country_specific/china/cn_bank_card_recognizer.py`
- `presidio_analyzer/nlp_engine/llm_verifier.py`
- `backend/main.py` (masking helpers)
- `backend/core/reporters/report_generator.py` (risk aggregation)

Python strings are modelled as `List Char` where character-level slicing
matters and as `String` elsewhere; Python floats are modelled as `ℚ`;
Python `int()` truncation is modelled explicitly.
-/

/-- Value of an ASCII digit character, as Python `int(c)` for `c ∈ '0'..'9'`.
(Python `int` also accepts non-ASCII decimal digits; the repository only
feeds ASCII text to these validators, and all theorems below restrict to
ASCII digits via `Char.isDigit`.) -/
def digitVal (c : Char) : ℕ := c.toNat - '0'.toNat

namespace CnIdCard

/-- Weights for checksum calculation (GB 11643-1999), `CnIdCardRecognizer.WEIGHTS`. -/
def WEIGHTS : List ℕ := [7, 9, 10, 5, 8, 4, 2, 1, 6, 3, 7, 9, 10, 5, 8, 4, 2]

/-- Checksum mapping table, `CnIdCardRecognizer.CHECKSUM_MAP`: remainder mod 11
maps to the expected checksum character. -/
def CHECKSUM_MAP : List Char := ['1', '0', 'X', '9', '8', '7', '6', '5', '4', '3', '2']

/-- Valid province codes (first 2 digits), `CnIdCardRecognizer.VALID_PROVINCE_CODES`. -/
def VALID_PROVINCE_CODES : List String :=
  ["11", "12", "13", "14", "15",
   "21", "22", "23",
   "31", "32", "33", "34", "35", "36", "37",
   "41", "42", "43", "44", "45", "46",
   "50", "51", "52", "53", "54",
   "61", "62", "63", "64", "65",
   "71",
   "81", "82"]

/-- `pattern_text.replace("-", "").replace(" ", "").upper()`:
drop every '-' and ' ', then uppercase the rest. -/
def cleanId (s : List Char) : List Char :=
  (s.filter (fun c => ¬ (c = '-' ∨ c = ' '))).map Char.toUpper

/-- The weighted sum `Σ_{i<17} int(id[i]) * WEIGHTS[i]` from
`CnIdCardRecognizer.validate_result`. -/
def weightedTotal (idn : List Char) : ℕ :=
  (List.zipWith (fun c w => digitVal c * w) (idn.take 17) WEIGHTS).sum

/-- `CnIdCardRecognizer.validate_result`.
`some true` = Confirmed (score 1.0), `some false` = Rejected (dropped),
`none` = Uncertain (kept at base score, eligible for LLM escalation).
The `try`/`except (ValueError, IndexError)` around the checksum loop is
modelled by the all-digits guard: `int(id_number[i])` raises `ValueError`
exactly when a non-digit occurs among the first 17 characters, and the
handler returns `None`. `CHECKSUM_MAP[total % 11]` never raises
`IndexError` since `total % 11 < 11`. -/
def validate_result (patternText : List Char) : Option Bool :=
  let idn := cleanId patternText
  if idn.length ≠ 18 then
    some false
  else if ¬ VALID_PROVINCE_CODES.contains (String.mk (idn.take 2)) then
    none
  else if (idn.take 17).all Char.isDigit then
    let expected := CHECKSUM_MAP.getD (weightedTotal idn % 11) ' '
    let actual := (idn.getD 17 ' ').toUpper
    if actual = expected then some true else none
  else
    none

end CnIdCard

namespace CnBankCard

/-- One step of the Luhn loop body in `CnBankCardRecognizer._luhn_checksum`:
double every second digit (odd index over the reversed digit list),
subtracting 9 when the doubled digit exceeds 9. -/
def luhnAdj (i d : ℕ) : ℕ :=
  if i % 2 = 1 then (if d * 2 > 9 then d * 2 - 9 else d * 2) else d

/-- The accumulation loop `for i, d in enumerate(digits): checksum += ...`
of `CnBankCardRecognizer._luhn_checksum`, with `i` the running index. -/
def luhnLoop : List ℕ → ℕ → ℕ
  | [], _ => 0
  | d :: rest, i => luhnAdj i d + luhnLoop rest (i + 1)

/-- `CnBankCardRecognizer._luhn_checksum`: digits of the card number,
reversed, summed with every second digit doubled (−9 if > 9); valid iff
the checksum is divisible by 10. -/
def luhn_checksum (cardNumber : List Char) : Bool :=
  luhnLoop ((cardNumber.map digitVal).reverse) 0 % 10 == 0

/-- `pattern_text.replace("-", "").replace(" ", "")`. -/
def cleanCard (s : List Char) : List Char :=
  s.filter (fun c => ¬ (c = '-' ∨ c = ' '))

/-- `CnBankCardRecognizer.validate_result`: length 15–19, all digits,
then Luhn decides Confirmed (`some true`) vs Uncertain (`none`);
bad length or non-digits give Rejected (`some false`). -/
def validate_result (patternText : List Char) : Option Bool :=
  let card := cleanCard patternText
  if card.length < 15 ∨ card.length > 19 then
    some false
  else if ¬ card.all Char.isDigit then
    some false
  else if luhn_checksum card then
    some true
  else
    none

/-- The Luhn total as the specification words it: digits taken from the
right, every second one doubled with 9 subtracted when the double exceeds
9, all summed.  The input list is the digit sequence read right-to-left. -/
def luhnClaimTotal : List ℕ → ℕ
  | [] => 0
  | [d] => d
  | d :: e :: rest =>
      d + (if e * 2 > 9 then e * 2 - 9 else e * 2) + luhnClaimTotal rest

end CnBankCard

/-- The ten ASCII digit characters, the values Python `int(c)` accepts from
this repository's ASCII inputs. -/
def DIGIT_CHARS : List Char := ['0', '1', '2', '3', '4', '5', '6', '7', '8', '9']

/-- Python slice `text[a:b]` for `0 ≤ a ≤ b` (the only form these modules use). -/
def pySlice (text : List Char) (a b : ℕ) : List Char :=
  (text.drop a).take (b - a)

/-- JSON values, the possible results of `json.loads`. -/
inductive JsonVal where
  | null : JsonVal
  | bool (b : Bool) : JsonVal
  | num (q : ℚ) : JsonVal
  | str (s : String) : JsonVal
  | arr (elems : List JsonVal) : JsonVal
  | obj (fields : List (String × JsonVal)) : JsonVal

namespace LLMVerifier

/-- Python truthiness (`if is_sensitive:`) of a JSON value. -/
def pythonTruthy : JsonVal → Bool
  | .null => false
  | .bool b => b
  | .num q => q ≠ 0
  | .str s => s ≠ ""
  | .arr elems => ¬ elems.isEmpty
  | .obj fields => ¬ fields.isEmpty

/-- `data.get(key, dflt)` on a parsed JSON object (`json.loads` yields
unique keys, so first-match lookup is the dictionary lookup). -/
def objGetD (fields : List (String × JsonVal)) (key : String) (dflt : JsonVal) : JsonVal :=
  match fields.find? (fun p => p.1 = key) with
  | some p => p.2
  | none => dflt

/-- Python `float(s)` on a string: parses an optional sign and a plain
decimal literal (`"12"`, `"0.5"`, `"1."`, `".5"`), `none` = `ValueError`.
Exponent/`inf`/`nan` forms are not exercised by this repository's data and
are modelled as errors. -/
def pyFloatString (s : String) : Option ℚ :=
  let t := s.trim.toList
  let u := match t with
    | '-' :: rest => rest
    | '+' :: rest => rest
    | _ => t
  let sign : ℚ := match t with
    | '-' :: _ => -1
    | _ => 1
  let ip := u.takeWhile (fun c => c ≠ '.')
  let rest := u.dropWhile (fun c => c ≠ '.')
  let digitsToNat (l : List Char) : ℕ := l.foldl (fun a c => a * 10 + digitVal c) 0
  match rest with
  | [] =>
    if ip ≠ [] ∧ ip.all Char.isDigit then some (sign * digitsToNat ip) else none
  | _ :: fp =>
    if (ip ≠ [] ∨ fp ≠ []) ∧ ip.all Char.isDigit ∧ fp.all Char.isDigit ∧
        fp.all (fun c => c ≠ '.') then
      some (sign * (digitsToNat ip + digitsToNat fp / 10 ^ fp.length))
    else none

/-- Exception classes thrown inside `parse_response`'s `try` block:
`caught` = `json.JSONDecodeError`/`KeyError`/`ValueError` (listed in the
`except` clause), `uncaught` = anything else (`TypeError`, `AttributeError`),
which escapes `parse_response`. -/
inductive PyErr where
  | caught : PyErr
  | uncaught : PyErr

/-- Python `float(v)` on a JSON value: numbers pass through, booleans map
to 0/1, strings parse or raise `ValueError` (caught), any other type
raises `TypeError` (not caught by `parse_response`). -/
def pyFloat : JsonVal → Except PyErr ℚ
  | .num q => .ok q
  | .bool b => .ok (if b then 1 else 0)
  | .str s =>
    match pyFloatString s with
    | some q => .ok q
    | none => .error .caught
  | _ => .error .uncaught

/-- The response preprocessing in `BaseLLMVerifier.parse_response`:
`response.strip()`, then if the result starts with a markdown fence
` ``` ` drop the first and last lines (`lines[1:-1]`). -/
def preprocessResponse (response : String) : String :=
  let r := response.trim
  if r.startsWith "```" then
    String.intercalate "\n" (((r.splitOn "\n").drop 1).dropLast)
  else r

/-- `BaseLLMVerifier.parse_response`, parameterised by `decode`, the model
of `json.loads` (`none` = `json.JSONDecodeError`).  Returns
`some (is_sensitive, confidence, reason)`; `none` models an exception that
escapes the listed `except (JSONDecodeError, KeyError, ValueError)`
handler (`.get` on a non-dict → `AttributeError`, `float(None)`/
`float([...])` → `TypeError`).  On a caught failure the conservative
fallback `(True, 0.5, "解析失败，保守判断为敏感信息")` is returned.
`is_sensitive` and `reason` are stored unconverted, hence `JsonVal`. -/
def parse_response (decode : String → Option JsonVal) (response : String) :
    Option (JsonVal × ℚ × JsonVal) :=
  match decode (preprocessResponse response) with
  | none => some (JsonVal.bool true, (1 : ℚ)/2, JsonVal.str "解析失败，保守判断为敏感信息")
  | some (.obj fields) =>
    let isSens := objGetD fields "is_sensitive" (.bool false)
    match pyFloat (objGetD fields "confidence" (.num ((1 : ℚ)/2))) with
    | .ok conf => some (isSens, conf, objGetD fields "reason" (.str ""))
    | .error .caught =>
      some (JsonVal.bool true, (1 : ℚ)/2, JsonVal.str "解析失败，保守判断为敏感信息")
    | .error .uncaught => none
  | some _ => none

/-- `BaseLLMVerifier.extract_context`: a `context_window`-bounded window
around the entity, the entity bracketed with 【】, ellipses when clipped. -/
def extract_context (contextWindow : ℕ) (text : List Char) (start stop : ℕ) : String :=
  let contextStart := start - contextWindow
  let contextEnd := min text.length (stop + contextWindow)
  let before := pySlice text contextStart start
  let entity := pySlice text start stop
  let after := pySlice text stop contextEnd
  let pfx := if contextStart > 0 then "..." else ""
  let sfx := if contextEnd < text.length then "..." else ""
  pfx ++ String.mk before ++ "【" ++ String.mk entity ++ "】" ++ String.mk after ++ sfx

/-- The literal segments of `BaseLLMVerifier.PROMPT_TEMPLATE` around the
three `str.format` placeholders (`\x7b\x7b` escapes render as literal braces). -/
def PROMPT_SEG1 : String :=
  "你是一个敏感信息识别专家。请判断以下文本中标记的内容是否为真正的敏感信息。\n\n【上下文】\n"

def PROMPT_SEG2 : String := "\n\n【待验证内容】\n- 文本: \""

def PROMPT_SEG3 : String := "\"\n- 预测类型: "

def PROMPT_SEG4 : String :=
  "\n\n【实体类型说明】\n- PERSON: 真实人名（不是称呼、职位、代词）\n- LOCATION: 真实地址/地名（不是方位词、泛指）\n- ORGANIZATION: 真实组织机构名（不是泛指、行业名）\n- CN_ID_CARD: 中国身份证号\n- CN_PHONE: 中国手机号/电话号码\n- CN_BANK_CARD: 银行卡号\n- CN_EMAIL: 电子邮箱地址\n- CN_IP_ADDRESS: IP地址（需要是真实IP，不是版本号）\n- CN_POSTAL_CODE: 邮政编码（需要是真实邮编，不是普通数字）\n\n请以JSON格式回答：\n\x7b\n    \"is_sensitive\": true/false,\n    \"confidence\": 0.0-1.0,\n    \"reason\": \"判断理由\"\n\x7d\n\n只输出JSON，不要其他内容。"

/-- `BaseLLMVerifier.build_prompt` = `PROMPT_TEMPLATE.format(context=...,
entity_text=..., entity_type=...)`. -/
def build_prompt (entityText entityType context : String) : String :=
  PROMPT_SEG1 ++ context ++ PROMPT_SEG2 ++ entityText ++ PROMPT_SEG3 ++ entityType ++ PROMPT_SEG4

/-- The dataclass `VerificationResult`.  `is_sensitive`/`reason` hold
whatever `data.get` produced (Python does not enforce the annotations). -/
structure VerificationResult where
  entity_text : String
  entity_type : String
  original_score : ℚ
  is_sensitive : JsonVal
  confidence : ℚ
  final_score : ℚ
  reason : JsonVal
  context : String

/-- The `try`/`except` block of `BaseLLMVerifier.verify_single`: call the
backend (`callLLM`, `.error e` = an exception with message `e`), parse the
response; any exception — from the call or escaping `parse_response` —
yields the conservative `(True, 0.5, "LLM调用失败: ...")` triple. -/
def verdictTriple (decode : String → Option JsonVal)
    (callLLM : String → Except String String) (prompt : String) :
    JsonVal × ℚ × JsonVal :=
  match callLLM prompt with
  | .error e => (JsonVal.bool true, (1 : ℚ)/2, JsonVal.str ("LLM调用失败: " ++ e))
  | .ok response =>
    match parse_response decode response with
    | some t => t
    | none => (JsonVal.bool true, (1 : ℚ)/2, JsonVal.str "LLM调用失败: TypeError")

/-- `BaseLLMVerifier.verify_single`.  Final score: sensitive ⇒
`max(original_score, confidence)`, not sensitive ⇒ `0`. -/
def verify_single (decode : String → Option JsonVal)
    (callLLM : String → Except String String) (contextWindow : ℕ)
    (text : List Char) (entityText entityType : String) (start stop : ℕ)
    (originalScore : ℚ) : VerificationResult :=
  let context := extract_context contextWindow text start stop
  let prompt := build_prompt entityText entityType context
  let t := verdictTriple decode callLLM prompt
  let finalScore := if pythonTruthy t.1 then max originalScore t.2.1 else 0
  { entity_text := entityText
    entity_type := entityType
    original_score := originalScore
    is_sensitive := t.1
    confidence := t.2.1
    final_score := finalScore
    reason := t.2.2
    context := context }

/-- The fields of a `RecognizerResult` that `verify_results` reads
(`stop` models the Python attribute `end`, a Lean keyword). -/
structure RecognizerResult where
  entity_type : String
  start : ℕ
  stop : ℕ
  score : ℚ

/-- `BaseLLMVerifier.verify_results`: each result scoring strictly below
`score_threshold` is escalated through `verify_single` on
`text[result.start:result.end]`; every other result is paired with `None`. -/
def verify_results (decode : String → Option JsonVal)
    (callLLM : String → Except String String) (scoreThreshold : ℚ)
    (contextWindow : ℕ) (text : List Char) :
    List RecognizerResult → List (RecognizerResult × Option VerificationResult)
  | [] => []
  | r :: rest =>
    (if r.score < scoreThreshold then
      (r, some (verify_single decode callLLM contextWindow text
        (String.mk (pySlice text r.start r.stop)) r.entity_type r.start r.stop r.score))
    else
      (r, none)) :: verify_results decode callLLM scoreThreshold contextWindow text rest

/-- The object `MockLLMVerifier._call_llm` serialises with `json.dumps`. -/
def mockResponseObj (defaultIsSensitive : Bool) (defaultConfidence : ℚ) : JsonVal :=
  .obj [("is_sensitive", .bool defaultIsSensitive),
        ("confidence", .num defaultConfidence),
        ("reason", .str "模拟验证结果")]

/-- `MockLLMVerifier._call_llm`, parameterised by `dumps`, the model of
`json.dumps`: always answers with the serialised default verdict. -/
def mock_call_llm (dumps : JsonVal → String) (defaultIsSensitive : Bool)
    (defaultConfidence : ℚ) : String → Except String String :=
  fun _ => .ok (dumps (mockResponseObj defaultIsSensitive defaultConfidence))

end LLMVerifier

namespace BackendMain

/-- `backend/main.py::_mask_value`: the type-aware masking table.
Python slices map to `take`/`drop` (`value[-k:]` = `drop (length - k)`;
`'*' * max(0, n)` = `List.replicate n '*'` by ℕ subtraction). -/
def maskValue (entityType : String) (value : List Char) : List Char :=
  match value with
  | [] => value
  | _ :: _ =>
    let length := value.length
    if entityType = "CN_PHONE" then
      if length = 11 then value.take 3 ++ "****".toList ++ value.drop 7
      else value.take (min 3 length) ++ "****".toList
    else if entityType = "CN_ID_CARD" then
      if length = 18 then value.take 4 ++ List.replicate 10 '*' ++ value.drop 14
      else if length = 15 then value.take 4 ++ List.replicate 7 '*' ++ value.drop 11
      else value.take 4 ++ List.replicate (length - 8) '*' ++ value.drop (max 4 (length - 4))
    else if entityType = "CN_BANK_CARD" then
      if length ≥ 16 then value.take 4 ++ " **** **** ".toList ++ value.drop (length - 4)
      else value.take 4 ++ "****".toList ++ value.drop (max 4 (length - 4))
    else if entityType = "CN_EMAIL" then
      match value.findIdx? (fun c => c = '@') with
      | some atIndex =>
        if atIndex > 0 then
          let localPart := value.take atIndex
          let domain := value.drop atIndex
          if localPart.length ≤ 3 then localPart.take 1 ++ "***".toList ++ domain
          else localPart.take 3 ++ "***".toList ++ domain
        else value.take 3 ++ "***".toList
      | none => value.take 3 ++ "***".toList
    else if entityType = "PERSON" then
      if length = 2 then value.take 1 ++ ['*']
      else if length = 3 then value.take 1 ++ "**".toList
      else if length ≥ 4 then value.take 2 ++ List.replicate (length - 2) '*'
      else value.take 1 ++ ['*']
    else if entityType = "CN_PASSPORT" ∨ entityType = "CN_DRIVER_LICENSE" ∨
        entityType = "CN_MILITARY_ID" then
      if length > 4 then value.take 2 ++ List.replicate (length - 4) '*' ++ value.drop (length - 2)
      else "***".toList
    else if entityType = "CN_VEHICLE_PLATE" then
      if length ≥ 7 then value.take 2 ++ "****".toList ++ value.drop (length - 1)
      else value.take 2 ++ "****".toList
    else if entityType = "LOCATION" then
      if length > 10 then value.take 6 ++ "***".toList
      else value.take (min 4 length) ++ "***".toList
    else
      List.replicate length '●'

/-- The fields of a recognizer result that `_apply_masks_to_text` reads
(`stop` models the Python attribute `end`). -/
structure MaskSpan where
  entity_type : String
  start : ℕ
  stop : ℕ
deriving DecidableEq

/-- `sorted(results, key=lambda r: r.start)`: Python's sort is stable,
modelled by the stable insertion sort on the `start` key. -/
def sortByStart (results : List MaskSpan) : List MaskSpan :=
  results.insertionSort (fun a b => a.start ≤ b.start)

/-- The masking walk of `_apply_masks_to_text`: skip a span whose start
lies before the end of the last retained span, otherwise emit the
unchanged gap then the mask; finally emit `text[last_end:]`. -/
def applyMasksGo (text : List Char) : List MaskSpan → ℕ → List Char
  | [], lastEnd => text.drop lastEnd
  | r :: rest, lastEnd =>
    if r.start < lastEnd then applyMasksGo text rest lastEnd
    else
      pySlice text lastEnd r.start ++ maskValue r.entity_type (pySlice text r.start r.stop) ++
        applyMasksGo text rest r.stop

/-- `backend/main.py::_apply_masks_to_text`. -/
def applyMasksToText (text : List Char) (results : List MaskSpan) : List Char :=
  match results with
  | [] => text
  | _ :: _ => applyMasksGo text (sortByStart results) 0

/-- The curation rule as the specification words it: walk the sorted spans
left to right and retain a span exactly when its start is ≥ the end of the
last retained span. -/
def retainWalk (lastEnd : ℕ) : List MaskSpan → List MaskSpan
  | [] => []
  | r :: rest =>
    if lastEnd ≤ r.start then r :: retainWalk r.stop rest else retainWalk lastEnd rest

/-- Rendering of a retained-span list: each span contributes the unchanged
gap before it plus its mask; the trailing text is emitted unchanged. -/
def renderMasks (text : List Char) (lastEnd : ℕ) : List MaskSpan → List Char
  | [] => text.drop lastEnd
  | r :: rest =>
    pySlice text lastEnd r.start ++ maskValue r.entity_type (pySlice text r.start r.stop) ++
      renderMasks text r.stop rest

end BackendMain

namespace ReportGen

/-- The dataclass `EntityInfo` (`stop` models the Python field `end`). -/
structure EntityInfo where
  entity_type : String
  text : String
  start : ℕ
  stop : ℕ
  score : ℚ
  source : String
  verified : Bool
  llm_reason : Option String
deriving DecidableEq

/-- A `FileResult` as `_calculate_risk` consumes it: only `entities` is
read by the risk computation (file metadata fields are irrelevant to it). -/
structure FileResult where
  filename : String
  entities : List EntityInfo
deriving DecidableEq

/-- `ReportGenerator.ENTITY_WEIGHTS`. -/
def ENTITY_WEIGHTS : List (String × ℤ) :=
  [("CN_ID_CARD", 10), ("CN_BANK_CARD", 10), ("CN_PASSPORT", 8), ("CN_PHONE", 5),
   ("CN_EMAIL", 3), ("PERSON", 4), ("CN_DRIVER_LICENSE", 6), ("CN_MILITARY_ID", 8),
   ("CN_SOCIAL_CREDIT_CODE", 5), ("CN_JWT", 7), ("CN_CLOUD_KEY", 9),
   ("PRIVATE_KEY", 10), ("DB_CONNECTION", 8), ("default", 2)]

/-- `self.ENTITY_WEIGHTS.get(entity_type, self.ENTITY_WEIGHTS["default"])`.
The `"default"` key is present, so the final arm is unreachable. -/
def weightFor (entityType : String) : ℤ :=
  match ENTITY_WEIGHTS.find? (fun p => p.1 = entityType) with
  | some p => p.2
  | none =>
    match ENTITY_WEIGHTS.find? (fun p => p.1 = "default") with
    | some p => p.2
    | none => 0

/-- Python `int()` on a float: truncation toward zero. -/
def pyIntTrunc (q : ℚ) : ℤ := if 0 ≤ q then ⌊q⌋ else ⌈q⌉

/-- The accumulation loop of `ReportGenerator._calculate_risk`:
`score += int(weight * entity.score)` over every entity of every file. -/
def riskSum (files : List FileResult) : ℤ :=
  files.foldl
    (fun acc fr =>
      fr.entities.foldl
        (fun a e => a + pyIntTrunc ((weightFor e.entity_type : ℚ) * e.score)) acc)
    0

/-- The level walk over `RISK_LEVELS` in insertion order
(critical ≥ 80, high ≥ 60, medium ≥ 40, low ≥ 0) with break on first hit;
the initial value and the final tier are both `"low"`, so the `≥ 0` test
collapses into the default. -/
def riskLevel (score : ℤ) : String :=
  if score ≥ 80 then "critical"
  else if score ≥ 60 then "high"
  else if score ≥ 40 then "medium"
  else "low"

/-- `ReportGenerator._calculate_risk`: the truncated weighted sum capped
by `min(score, 100)`, plus the level. -/
def calculate_risk (files : List FileResult) : ℤ × String :=
  let score := min (riskSum files) 100
  (score, riskLevel score)

/-- The risk score as the specification words it:
`min(100, floor(Σ weight(type) * result.score))` — floor of the *sum*. -/
def riskClaimScore (files : List FileResult) : ℤ :=
  min 100
    ⌊(files.map
        (fun fr => (fr.entities.map
          (fun e => (weightFor e.entity_type : ℚ) * e.score)).sum)).sum⌋

end ReportGen

theorem charToNat_ofNat (n : ℕ) (h : n.isValidChar) : (Char.ofNat n).toNat = n := by
  have hlt : n < 2 ^ 32 := by
    rcases h with h | ⟨h1, h2⟩ <;> omega
  simp only [Char.ofNat, dif_pos h, Char.ofNatAux, Char.toNat, UInt32.toNat]
  simp [BitVec.toNat_ofNat, Nat.mod_eq_of_lt hlt]

/-- `Char.toUpper` is idempotent (`str.upper()` applied twice). -/
theorem charToUpper_idem (c : Char) : c.toUpper.toUpper = c.toUpper := by
  simp only [Char.toUpper]
  split
  · next h =>
    have hv : ((Char.ofNat (c.toNat - 32))).toNat = c.toNat - 32 := by
      apply charToNat_ofNat
      left
      omega
    rw [if_neg]
    omega
  · rfl

namespace CnIdCard

theorem digit_not_sep : ∀ c ∈ DIGIT_CHARS, (¬ (c = '-' ∨ c = ' ')) := by decide

theorem digit_toUpper : ∀ c ∈ DIGIT_CHARS, c.toUpper = c := by decide

theorem digit_isDigit : ∀ c ∈ DIGIT_CHARS, c.isDigit = true := by decide

theorem checksum_map_toUpper : ∀ c ∈ CHECKSUM_MAP, c.toUpper = c := by decide

theorem checksum_map_getD_toUpper (k : ℕ) :
    (CHECKSUM_MAP.getD (k % 11) ' ').toUpper = CHECKSUM_MAP.getD (k % 11) ' ' := by
  have hk : k % 11 < CHECKSUM_MAP.length := by
    have : k % 11 < 11 := Nat.mod_lt _ (by norm_num)
    simpa [CHECKSUM_MAP] using this
  rw [List.getD_eq_getElem _ _ hk]
  exact checksum_map_toUpper _ (List.getElem_mem hk)

/-- `cleanId` leaves a list of ASCII digit characters unchanged. -/
theorem cleanId_digits (l : List Char) (h : ∀ c ∈ l, c ∈ DIGIT_CHARS) :
    cleanId l = l := by
  unfold cleanId
  rw [List.filter_eq_self.mpr, List.map_congr_left, List.map_id]
  · intro a ha
    exact digit_toUpper a (h a ha)
  · intro a ha
    simpa using digit_not_sep a (h a ha)

theorem cleanId_append (l₁ l₂ : List Char) :
    cleanId (l₁ ++ l₂) = cleanId l₁ ++ cleanId l₂ := by
  simp [cleanId, List.filter_append]

/-- A well-formed cleaned ID (valid province, digit body, matching checksum)
is Confirmed by `validate_result`. -/
theorem validate_result_confirms (s : List Char)
    (h18 : (cleanId s).length = 18)
    (hprov : VALID_PROVINCE_CODES.contains (String.mk ((cleanId s).take 2)) = true)
    (hdig : ∀ c ∈ (cleanId s).take 17, c ∈ DIGIT_CHARS)
    (hchk : (cleanId s).getD 17 ' ' =
      CHECKSUM_MAP.getD (weightedTotal (cleanId s) % 11) ' ') :
    validate_result s = some true := by
  unfold validate_result
  rw [if_neg (by omega), if_neg (by simpa using hprov),
    if_pos (List.all_eq_true.mpr fun c hc => digit_isDigit c (hdig c hc))]
  rw [hchk, checksum_map_getD_toUpper, if_pos rfl]

/-- Replacing the final checksum character of a well-formed cleaned ID by a
character whose uppercase form differs never yields Confirmed. -/
theorem validate_result_altered_checksum (s : List Char) (c' : Char)
    (h18 : (cleanId s).length = 18)
    (hdig : ∀ c ∈ (cleanId s).take 17, c ∈ DIGIT_CHARS)
    (hchk : (cleanId s).getD 17 ' ' =
      CHECKSUM_MAP.getD (weightedTotal (cleanId s) % 11) ' ')
    (hne : c'.toUpper ≠ (cleanId s).getD 17 ' ') :
    validate_result ((cleanId s).take 17 ++ [c']) ≠ some true := by
  have hlen17 : ((cleanId s).take 17).length = 17 := by
    simp [List.length_take, h18]
  have hclean17 : cleanId ((cleanId s).take 17) = (cleanId s).take 17 :=
    cleanId_digits _ hdig
  have hsplit : cleanId ((cleanId s).take 17 ++ [c']) =
      (cleanId s).take 17 ++ cleanId [c'] := by
    rw [cleanId_append, hclean17]
  by_cases hsep : c' = '-' ∨ c' = ' '
  · -- the separator is removed, leaving a 17-character string: Rejected.
    have hc : cleanId [c'] = [] := by
      simp [cleanId, List.filter, hsep]
    unfold validate_result
    rw [hsplit, hc]
    rw [if_pos (by simp [hlen17])]
    simp
  · -- length stays 18; the walk reaches the checksum comparison and fails.
    have hc : cleanId [c'] = [c'.toUpper] := by
      simp [cleanId, List.filter, hsep]
    have htake17 : (((cleanId s).take 17 ++ [c'.toUpper]).take 17) = (cleanId s).take 17 := by
      rw [List.take_append_of_le_length (by simp [hlen17]), List.take_take]
      simp
    unfold validate_result
    rw [hsplit, hc]
    rw [if_neg (by simp [hlen17]), htake17]
    by_cases hprov2 :
        VALID_PROVINCE_CODES.contains
          (String.mk (((cleanId s).take 17 ++ [c'.toUpper]).take 2)) = true
    · rw [if_neg (by simpa using hprov2),
        if_pos (List.all_eq_true.mpr fun c hc => digit_isDigit c (hdig c hc))]
      have hgetD : ((cleanId s).take 17 ++ [c'.toUpper]).getD 17 ' ' = c'.toUpper := by
        rw [List.getD_eq_getElem _ _ (by simp [hlen17]),
          List.getElem_append_right (by omega)]
        simp [hlen17]
      have hwt : weightedTotal ((cleanId s).take 17 ++ [c'.toUpper]) =
          weightedTotal (cleanId s) := by
        unfold weightedTotal
        rw [htake17]
      rw [hgetD, hwt, charToUpper_idem, if_neg]
      · simp
      · rw [← hchk]
        exact hne
    · rw [if_pos (by simpa using hprov2)]
      simp

end CnIdCard

namespace LLMVerifier

/-- Whenever the backend call raises, or its response fails JSON decoding,
the `try`/`except` ladder produces the conservative verdict
`(True, 0.5, _)`. -/
theorem verdictTriple_failure (decode : String → Option JsonVal)
    (callLLM : String → Except String String) (prompt : String)
    (hfail : ∀ resp, callLLM prompt = .ok resp →
      decode (preprocessResponse resp) = none) :
    ∃ r, verdictTriple decode callLLM prompt = (JsonVal.bool true, (1 : ℚ)/2, r) := by
  cases h : callLLM prompt with
  | error e =>
    exact ⟨JsonVal.str ("LLM调用失败: " ++ e), by simp [verdictTriple, h]⟩
  | ok resp =>
    exact ⟨JsonVal.str "解析失败，保守判断为敏感信息",
      by simp [verdictTriple, h, parse_response, hfail resp h]⟩

end LLMVerifier

/-- C1: for every backend response that does not decode as JSON (after the
strip/fence preprocessing), and likewise when the backend call raises, the
verifier resolves the span with `is_sensitive = true`, `confidence = 0.5`,
so the final score is `max(original_score, 0.5) > 0` and the span is
retained, never dropped. -/
theorem C1_parse_failure_keeps_span
    (decode : String → Option JsonVal) (callLLM : String → Except String String)
    (cw : ℕ) (text : List Char) (etext etype : String) (start stop : ℕ) (orig : ℚ)
    (hfail : ∀ resp, callLLM (LLMVerifier.build_prompt etext etype
        (LLMVerifier.extract_context cw text start stop)) = .ok resp →
      decode (LLMVerifier.preprocessResponse resp) = none) :
    (LLMVerifier.verify_single decode callLLM cw text etext etype start stop orig).is_sensitive
        = JsonVal.bool true ∧
    (LLMVerifier.verify_single decode callLLM cw text etext etype start stop orig).confidence
        = (1 : ℚ)/2 ∧
    (LLMVerifier.verify_single decode callLLM cw text etext etype start stop orig).final_score
        = max orig ((1 : ℚ)/2) ∧
    0 < (LLMVerifier.verify_single decode callLLM cw text etext etype start stop orig).final_score := by
  obtain ⟨r, hr⟩ := LLMVerifier.verdictTriple_failure decode callLLM _ hfail
  refine ⟨?_, ?_, ?_, ?_⟩
  · simp [LLMVerifier.verify_single, hr]
  · simp [LLMVerifier.verify_single, hr]
  · simp [LLMVerifier.verify_single, hr, LLMVerifier.pythonTruthy]
  · simp [LLMVerifier.verify_single, hr, LLMVerifier.pythonTruthy]

/-- Closed witness for `C1_parse_failure_keeps_span`: a backend whose
answer is not JSON. -/
theorem C1_witness :
    (LLMVerifier.verify_single (fun _ => none) (fun _ => .ok "not json") 30
        "some text".toList "张三" "PERSON" 0 2 ((3 : ℚ)/10)).final_score
      = max ((3 : ℚ)/10) ((1 : ℚ)/2) ∧
    0 < (LLMVerifier.verify_single (fun _ => none) (fun _ => .ok "not json") 30
        "some text".toList "张三" "PERSON" 0 2 ((3 : ℚ)/10)).final_score := by
  have h := C1_parse_failure_keeps_span (fun _ => none) (fun _ => .ok "not json") 30
    "some text".toList "张三" "PERSON" 0 2 ((3 : ℚ)/10)
    (fun _ _ => rfl)
  exact ⟨h.2.2.1, h.2.2.2⟩

/-- C4: a sensitive parsed verdict yields final score
`max(original_score, confidence)`, a non-sensitive one yields 0; and with
the mock backend configured with `default_is_sensitive = false`, every
escalated span receives final score 0. -/
theorem C4_final_score_rule :
    (∀ (decode : String → Option JsonVal) (callLLM : String → Except String String)
       (cw : ℕ) (text : List Char) (etext etype : String) (start stop : ℕ) (orig : ℚ),
      (LLMVerifier.pythonTruthy
          (LLMVerifier.verify_single decode callLLM cw text etext etype start stop orig).is_sensitive = true →
        (LLMVerifier.verify_single decode callLLM cw text etext etype start stop orig).final_score =
          max orig (LLMVerifier.verify_single decode callLLM cw text etext etype start stop orig).confidence) ∧
      (LLMVerifier.pythonTruthy
          (LLMVerifier.verify_single decode callLLM cw text etext etype start stop orig).is_sensitive = false →
        (LLMVerifier.verify_single decode callLLM cw text etext etype start stop orig).final_score = 0)) ∧
    (∀ (dumps : JsonVal → String) (decode : String → Option JsonVal) (c thr : ℚ)
       (cw : ℕ) (text : List Char) (results : List LLMVerifier.RecognizerResult),
      decode (LLMVerifier.preprocessResponse (dumps (LLMVerifier.mockResponseObj false c))) =
          some (LLMVerifier.mockResponseObj false c) →
      ∀ p ∈ LLMVerifier.verify_results decode (LLMVerifier.mock_call_llm dumps false c)
          thr cw text results,
        ∀ v, p.2 = some v → v.final_score = 0) := by
  constructor
  · intro decode callLLM cw text etext etype start stop orig
    constructor <;> intro h <;>
      simp only [LLMVerifier.verify_single] at * <;> simp [h]
  · intro dumps decode c thr cw text results hrt p hp v hv
    induction results with
    | nil => simp [LLMVerifier.verify_results] at hp
    | cons r rest ih =>
      rw [LLMVerifier.verify_results] at hp
      rcases List.mem_cons.1 hp with h | h
      · by_cases hs : r.score < thr
        · rw [if_pos hs] at h
          rw [h] at hv
          simp only [Option.some.injEq] at hv
          rw [← hv]
          simp only [LLMVerifier.verify_single, LLMVerifier.verdictTriple,
            LLMVerifier.mock_call_llm, LLMVerifier.parse_response]
          rw [hrt]
          simp +decide [LLMVerifier.mockResponseObj, LLMVerifier.objGetD,
            LLMVerifier.pyFloat, LLMVerifier.pythonTruthy, List.find?]
        · rw [if_neg hs] at h
          rw [h] at hv
          simp at hv
      · exact ih h

/-- Closed witness for `C4_final_score_rule`: one below-threshold result
escalated to the non-sensitive mock backend is dropped. -/
theorem C4_witness :
    (LLMVerifier.verify_single (fun _ => some (LLMVerifier.mockResponseObj false ((4:ℚ)/5)))
      (LLMVerifier.mock_call_llm (fun _ => "mock") false ((4:ℚ)/5)) 30 "1380".toList
      (String.mk (pySlice "1380".toList 0 4)) "CN_PHONE" 0 4 ((3:ℚ)/10)).final_score = 0 := by
  have hmem :
      (({ entity_type := "CN_PHONE", start := 0, stop := 4, score := (3:ℚ)/10 } :
          LLMVerifier.RecognizerResult),
        some (LLMVerifier.verify_single
          (fun _ => some (LLMVerifier.mockResponseObj false ((4:ℚ)/5)))
          (LLMVerifier.mock_call_llm (fun _ => "mock") false ((4:ℚ)/5)) 30 "1380".toList
          (String.mk (pySlice "1380".toList 0 4)) "CN_PHONE" 0 4 ((3:ℚ)/10))) ∈
        LLMVerifier.verify_results (fun _ => some (LLMVerifier.mockResponseObj false ((4:ℚ)/5)))
          (LLMVerifier.mock_call_llm (fun _ => "mock") false ((4:ℚ)/5)) ((1:ℚ)/2) 30
          "1380".toList
          [{ entity_type := "CN_PHONE", start := 0, stop := 4, score := (3:ℚ)/10 }] := by
    rw [LLMVerifier.verify_results, if_pos (by norm_num), LLMVerifier.verify_results]
    exact List.mem_singleton.mpr rfl
  exact C4_final_score_rule.2 (fun _ => "mock")
    (fun _ => some (LLMVerifier.mockResponseObj false ((4:ℚ)/5))) ((4:ℚ)/5) ((1:ℚ)/2) 30
    "1380".toList [{ entity_type := "CN_PHONE", start := 0, stop := 4, score := (3:ℚ)/10 }]
    rfl _ hmem _ rfl

/-- C5: `verify_results` escalates a result iff its score is strictly
below the threshold; results at or above the threshold are passed through
paired with no verification, and the original results are preserved in
order. -/
theorem C5_escalates_iff_below_threshold :
    (∀ (decode : String → Option JsonVal) (callLLM : String → Except String String)
       (thr : ℚ) (cw : ℕ) (text : List Char) (results : List LLMVerifier.RecognizerResult),
      (LLMVerifier.verify_results decode callLLM thr cw text results).map Prod.fst = results) ∧
    (∀ (decode : String → Option JsonVal) (callLLM : String → Except String String)
       (thr : ℚ) (cw : ℕ) (text : List Char) (results : List LLMVerifier.RecognizerResult),
      ∀ p ∈ LLMVerifier.verify_results decode callLLM thr cw text results,
        (p.2 = none ↔ thr ≤ p.1.score) ∧
        (p.1.score < thr → p.2 = some (LLMVerifier.verify_single decode callLLM cw text
          (String.mk (pySlice text p.1.start p.1.stop)) p.1.entity_type p.1.start p.1.stop
          p.1.score))) := by
  constructor
  · intro decode callLLM thr cw text results
    induction results with
    | nil => rfl
    | cons r rest ih =>
      rw [LLMVerifier.verify_results]
      by_cases hs : r.score < thr
      · rw [if_pos hs]
        simpa using ih
      · rw [if_neg hs]
        simpa using ih
  · intro decode callLLM thr cw text results p hp
    induction results with
    | nil => simp [LLMVerifier.verify_results] at hp
    | cons r rest ih =>
      rw [LLMVerifier.verify_results] at hp
      rcases List.mem_cons.1 hp with h | h
      · by_cases hs : r.score < thr
        · rw [if_pos hs] at h
          subst h
          constructor
          · simp [not_le.mpr hs]
          · intro _
            rfl
        · rw [if_neg hs] at h
          subst h
          constructor
          · simp [not_lt.1 hs]
          · intro hlt
            exact absurd hlt hs
      · exact ih h

/-- Closed witness for `C5_escalates_iff_below_threshold`: an
at-threshold result is passed through with no verification. -/
theorem C5_witness :
    ((1:ℚ)/2) ≤ (9:ℚ)/10 ∧
    LLMVerifier.verify_results (fun _ => none) (fun _ => Except.ok "") ((1:ℚ)/2) 30
      "1380".toList
      [{ entity_type := "CN_PHONE", start := 0, stop := 4, score := (9:ℚ)/10 }] =
    [({ entity_type := "CN_PHONE", start := 0, stop := 4, score := (9:ℚ)/10 }, none)] := by
  have heval : LLMVerifier.verify_results (fun _ => none) (fun _ => Except.ok "") ((1:ℚ)/2) 30
      "1380".toList
      [{ entity_type := "CN_PHONE", start := 0, stop := 4, score := (9:ℚ)/10 }] =
      [({ entity_type := "CN_PHONE", start := 0, stop := 4, score := (9:ℚ)/10 }, none)] := by
    rw [LLMVerifier.verify_results, if_neg (by norm_num), LLMVerifier.verify_results]
  have h := C5_escalates_iff_below_threshold.2 (fun _ => none) (fun _ => Except.ok "")
    ((1:ℚ)/2) 30 "1380".toList
    [{ entity_type := "CN_PHONE", start := 0, stop := 4, score := (9:ℚ)/10 }]
    ({ entity_type := "CN_PHONE", start := 0, stop := 4, score := (9:ℚ)/10 }, none)
    (by rw [heval]; exact List.mem_singleton.mpr rfl)
  exact ⟨h.1.mp rfl, heval⟩

/-- C10 fails as stated: a response that parses as a JSON object with no
`"is_sensitive"` key but a `null` `"confidence"` value makes `float(None)`
raise `TypeError`, which escapes `parse_response` and trips the outer
conservative fallback, so the span keeps score `max(orig, 0.5) = 0.5 ≠ 0`
instead of being dropped. -/
theorem C10_counterexample :
    ((fun _ => some (JsonVal.obj [("confidence", JsonVal.null)])) :
        String → Option JsonVal) (LLMVerifier.preprocessResponse "x")
      = some (JsonVal.obj [("confidence", JsonVal.null)]) ∧
    [("confidence", JsonVal.null)].find? (fun p => p.1 = "is_sensitive") = none ∧
    (LLMVerifier.verify_single (fun _ => some (JsonVal.obj [("confidence", JsonVal.null)]))
      (fun _ => Except.ok "x") 30 "t".toList "13" "CN_PHONE" 0 2 ((3:ℚ)/10)).final_score
      = (1:ℚ)/2 ∧
    ((1:ℚ)/2 : ℚ) ≠ 0 := by
  refine ⟨rfl, rfl, ?_, by norm_num⟩
  have h : (LLMVerifier.verify_single
      (fun _ => some (JsonVal.obj [("confidence", JsonVal.null)]))
      (fun _ => Except.ok "x") 30 "t".toList "13" "CN_PHONE" 0 2 ((3:ℚ)/10)).final_score
      = max ((3:ℚ)/10) ((1:ℚ)/2) := rfl
  rw [h]
  exact max_eq_right (by norm_num)

/-- C10 (amended): if the backend response parses as a JSON object with no
`"is_sensitive"` key and its `"confidence"` value (if any) converts to a
float, then `is_sensitive` defaults to false and `verify_single` assigns
final score 0; a failing conversion instead triggers a conservative
fallback that keeps the span. -/
theorem C10_amended_missing_key_drops
    (decode : String → Option JsonVal) (callLLM : String → Except String String)
    (cw : ℕ) (text : List Char) (etext etype : String) (start stop : ℕ) (orig : ℚ)
    (resp : String) (fields : List (String × JsonVal)) (q : ℚ)
    (hcall : callLLM (LLMVerifier.build_prompt etext etype
        (LLMVerifier.extract_context cw text start stop)) = .ok resp)
    (hdec : decode (LLMVerifier.preprocessResponse resp) = some (JsonVal.obj fields))
    (hnokey : fields.find? (fun p => p.1 = "is_sensitive") = none)
    (hconf : LLMVerifier.pyFloat (LLMVerifier.objGetD fields "confidence"
        (JsonVal.num ((1:ℚ)/2))) = .ok q) :
    (LLMVerifier.verify_single decode callLLM cw text etext etype start stop orig).is_sensitive
        = JsonVal.bool false ∧
    (LLMVerifier.verify_single decode callLLM cw text etext etype start stop orig).final_score
        = 0 := by
  have h1 : LLMVerifier.objGetD fields "is_sensitive" (JsonVal.bool false)
      = JsonVal.bool false := by
    simp [LLMVerifier.objGetD, hnokey]
  have ht : LLMVerifier.verdictTriple decode callLLM (LLMVerifier.build_prompt etext etype
      (LLMVerifier.extract_context cw text start stop)) =
      (JsonVal.bool false, q, LLMVerifier.objGetD fields "reason" (JsonVal.str "")) := by
    simp only [LLMVerifier.verdictTriple, hcall, LLMVerifier.parse_response, hdec, h1, hconf]
  constructor
  · simp [LLMVerifier.verify_single, ht]
  · simp [LLMVerifier.verify_single, ht, LLMVerifier.pythonTruthy]

/-- Closed witness for `C10_amended_missing_key_drops`: the response
`\x7b\x7d` (empty JSON object). -/
theorem C10_witness :
    (LLMVerifier.verify_single (fun _ => some (JsonVal.obj []))
      (fun _ => Except.ok "resp") 30 "t".toList "13" "CN_PHONE" 0 2 ((3:ℚ)/10)).is_sensitive
        = JsonVal.bool false ∧
    (LLMVerifier.verify_single (fun _ => some (JsonVal.obj []))
      (fun _ => Except.ok "resp") 30 "t".toList "13" "CN_PHONE" 0 2 ((3:ℚ)/10)).final_score
        = 0 :=
  C10_amended_missing_key_drops (fun _ => some (JsonVal.obj []))
    (fun _ => Except.ok "resp") 30 "t".toList "13" "CN_PHONE" 0 2 ((3:ℚ)/10)
    "resp" [] ((1:ℚ)/2) rfl rfl rfl rfl

namespace BackendMain

/-- The code's masking walk coincides with the specification's
retain-then-render reading, for every running `last_end`. -/
theorem applyMasksGo_eq_render (text : List Char) (l : List MaskSpan) :
    ∀ lastEnd, applyMasksGo text l lastEnd = renderMasks text lastEnd (retainWalk lastEnd l) := by
  induction l with
  | nil => intro lastEnd; rfl
  | cons r rest ih =>
    intro lastEnd
    by_cases hc : r.start < lastEnd
    · rw [applyMasksGo, if_pos hc, retainWalk, if_neg (not_le.mpr hc)]
      exact ih lastEnd
    · rw [applyMasksGo, if_neg hc, retainWalk, if_pos (not_lt.1 hc), renderMasks]
      rw [ih r.stop]

end BackendMain

/-- C6: the curation stage sorts spans by start (stably), walks left to
right and retains a span exactly when its start is ≥ the end of the last
retained span; in particular of `[0,10)` and `[5,15)` only `[0,10)` is
retained and the text of `[10,15)` is emitted unchanged. -/
theorem C6_overlap_first_start_wins :
    (∀ (text : List Char) (spans : List BackendMain.MaskSpan),
      BackendMain.applyMasksToText text spans =
        BackendMain.renderMasks text 0
          (BackendMain.retainWalk 0 (BackendMain.sortByStart spans)) ∧
      (BackendMain.sortByStart spans).Perm spans ∧
      (BackendMain.sortByStart spans).Pairwise (fun a b => a.start ≤ b.start)) ∧
    BackendMain.retainWalk 0 (BackendMain.sortByStart
        [{ entity_type := "FOO", start := 0, stop := 10 },
         { entity_type := "BAR", start := 5, stop := 15 }]) =
      [{ entity_type := "FOO", start := 0, stop := 10 }] ∧
    BackendMain.applyMasksToText "0123456789ABCDE".toList
        [{ entity_type := "FOO", start := 0, stop := 10 },
         { entity_type := "BAR", start := 5, stop := 15 }] =
      List.replicate 10 '●' ++ "ABCDE".toList := by
  refine ⟨fun text spans => ⟨?_, List.perm_insertionSort _ spans, ?_⟩, by decide, by decide⟩
  · cases spans with
    | nil => rfl
    | cons r rest =>
      rw [BackendMain.applyMasksToText]
      exact BackendMain.applyMasksGo_eq_render text _ 0
  · haveI : IsTotal BackendMain.MaskSpan (fun a b => a.start ≤ b.start) :=
      ⟨fun a b => le_total a.start b.start⟩
    haveI : IsTrans BackendMain.MaskSpan (fun a b => a.start ≤ b.start) :=
      ⟨fun a b c hab hbc => le_trans hab hbc⟩
    exact List.sorted_insertionSort _ spans

/-- C9: the CN_PHONE mask of an 11-character value keeps the first 3 and
last 4 characters and replaces the middle with exactly four asterisks;
`mask_phone("13812345678") = "138****5678"`. -/
theorem C9_phone_mask :
    (∀ v : List Char, v.length = 11 →
      BackendMain.maskValue "CN_PHONE" v =
        v.take 3 ++ "****".toList ++ v.drop (v.length - 4) ∧
      (v.take 3).length = 3 ∧ (v.drop (v.length - 4)).length = 4) ∧
    BackendMain.maskValue "CN_PHONE" "13812345678".toList = "138****5678".toList := by
  refine ⟨fun v h => ⟨?_, ?_, ?_⟩, by decide⟩
  · cases v with
    | nil => simp at h
    | cons a t =>
      rw [h]
      simp only [BackendMain.maskValue, h]
      norm_num
  · rw [List.length_take, h]
    omega
  · rw [List.length_drop, h]

/-- Closed witness for `C9_phone_mask`. -/
theorem C9_witness :
    BackendMain.maskValue "CN_PHONE" "13812345678".toList =
      "13812345678".toList.take 3 ++ "****".toList ++
        "13812345678".toList.drop ("13812345678".toList.length - 4) :=
  (C9_phone_mask.1 "13812345678".toList (by decide)).1

namespace ReportGen

/-- Folding `+ f x` over a list from any accumulator adds the mapped sum. -/
theorem foldl_add_map {α : Type} (f : α → ℤ) :
    ∀ (l : List α) (acc : ℤ), l.foldl (fun a x => a + f x) acc = acc + (l.map f).sum := by
  intro l
  induction l with
  | nil => intro acc; simp
  | cons x t ih => intro acc; simp [List.foldl_cons, ih, add_assoc]

/-- The risk accumulation loop, as a closed double sum. -/
theorem riskSum_eq_sum (files : List FileResult) :
    riskSum files = (files.map (fun fr => (fr.entities.map
      (fun e => pyIntTrunc ((weightFor e.entity_type : ℚ) * e.score))).sum)).sum := by
  unfold riskSum
  have go : ∀ (fs : List FileResult) (acc : ℤ),
      fs.foldl (fun acc fr => fr.entities.foldl
        (fun a e => a + pyIntTrunc ((weightFor e.entity_type : ℚ) * e.score)) acc) acc =
      acc + (fs.map (fun fr => (fr.entities.map
        (fun e => pyIntTrunc ((weightFor e.entity_type : ℚ) * e.score))).sum)).sum := by
    intro fs
    induction fs with
    | nil => intro acc; simp
    | cons fr t ih =>
      intro acc
      rw [List.foldl_cons, foldl_add_map, ih]
      simp [add_assoc]
  rw [go]
  simp

/-- Every weight in the static table is positive, and so is the default. -/
theorem weightFor_pos (t : String) : 0 < weightFor t := by
  unfold weightFor
  cases h : ENTITY_WEIGHTS.find? (fun p => p.1 = t) with
  | none =>
    rw [show ENTITY_WEIGHTS.find? (fun p => p.1 = "default") = some ("default", 2) from by decide]
    norm_num
  | some p =>
    have hp : p ∈ ENTITY_WEIGHTS := List.mem_of_find?_eq_some h
    have : ∀ q ∈ ENTITY_WEIGHTS, 0 < q.2 := by decide
    exact this p hp

/-- A per-entity risk term is nonnegative when the entity score is. -/
theorem riskTerm_nonneg (e : EntityInfo) (h : 0 ≤ e.score) :
    0 ≤ pyIntTrunc ((weightFor e.entity_type : ℚ) * e.score) := by
  have hw : (0:ℚ) ≤ (weightFor e.entity_type : ℚ) := by
    exact_mod_cast (weightFor_pos e.entity_type).le
  have hm : 0 ≤ (weightFor e.entity_type : ℚ) * e.score := mul_nonneg hw h
  unfold pyIntTrunc
  rw [if_pos hm]
  exact Int.floor_nonneg.mpr hm

/-- Truncation toward zero agrees with `⌊·⌋` on nonnegative rationals. -/
theorem pyIntTrunc_eq_floor (q : ℚ) (h : 0 ≤ q) : pyIntTrunc q = ⌊q⌋ := by
  unfold pyIntTrunc
  rw [if_pos h]

end ReportGen

/-- C7 fails as stated: `_calculate_risk` truncates each `weight * score`
per entity before summing, not the floor of the whole sum.  Two unlisted
(weight 2) entities of score 0.75 give the code 1 + 1 = 2, while
`min(100, floor(Σ weight * score)) = floor(3.0) = 3`. -/
theorem C7_counterexample :
    (ReportGen.calculate_risk
        [{ filename := "f", entities :=
            [{ entity_type := "FOO", text := "x", start := 0, stop := 1, score := (3:ℚ)/4,
               source := "", verified := false, llm_reason := none },
             { entity_type := "FOO", text := "y", start := 1, stop := 2, score := (3:ℚ)/4,
               source := "", verified := false, llm_reason := none }] }]).1 = 2 ∧
    ReportGen.riskClaimScore
        [{ filename := "f", entities :=
            [{ entity_type := "FOO", text := "x", start := 0, stop := 1, score := (3:ℚ)/4,
               source := "", verified := false, llm_reason := none },
             { entity_type := "FOO", text := "y", start := 1, stop := 2, score := (3:ℚ)/4,
               source := "", verified := false, llm_reason := none }] }] = 3 ∧
    (2 : ℤ) ≠ 3 := by
  have hW : ReportGen.weightFor "FOO" = 2 := rfl
  refine ⟨?_, ?_, by decide⟩
  · have hs : ReportGen.riskSum
        [{ filename := "f", entities :=
            [{ entity_type := "FOO", text := "x", start := 0, stop := 1, score := (3:ℚ)/4,
               source := "", verified := false, llm_reason := none },
             { entity_type := "FOO", text := "y", start := 1, stop := 2, score := (3:ℚ)/4,
               source := "", verified := false, llm_reason := none }] }] = 2 := by
      rw [ReportGen.riskSum_eq_sum]
      norm_num [ReportGen.pyIntTrunc, hW]
    simp only [ReportGen.calculate_risk, hs]
    exact min_eq_left (by norm_num)
  · have hq : ([({ filename := "f", entities :=
            [{ entity_type := "FOO", text := "x", start := 0, stop := 1, score := (3:ℚ)/4,
               source := "", verified := false, llm_reason := none },
             { entity_type := "FOO", text := "y", start := 1, stop := 2, score := (3:ℚ)/4,
               source := "", verified := false, llm_reason := none }] } :
          ReportGen.FileResult)].map
        (fun fr => (fr.entities.map
          (fun e => (ReportGen.weightFor e.entity_type : ℚ) * e.score)).sum)).sum = 3 := by
      norm_num [hW]
    unfold ReportGen.riskClaimScore
    rw [hq]
    rw [show ⌊(3:ℚ)⌋ = 3 from by norm_num]
    exact min_eq_right (by norm_num)

/-- C7 (amended): the aggregate risk score equals
`min(100, Σ floor(weight(type) * score))` with the floor applied *per
entity* (Python `int()` inside the loop), not to the total sum; unlisted
types get default weight 2.  In particular with the table weight 10 for
`CN_ID_CARD`, a single confirmed ID-card result of score 1.0 yields risk
score 10 and level `"low"`. -/
theorem C7_amended_risk_formula :
    (∀ files : List ReportGen.FileResult,
      (∀ fr ∈ files, ∀ e ∈ fr.entities, 0 ≤ e.score) →
      (ReportGen.calculate_risk files).1 =
        min 100 ((files.map (fun fr => (fr.entities.map
          (fun e => ⌊(ReportGen.weightFor e.entity_type : ℚ) * e.score⌋)).sum)).sum)) ∧
    ReportGen.weightFor "CN_ID_CARD" = 10 ∧
    ReportGen.calculate_risk
      [{ filename := "f", entities :=
          [{ entity_type := "CN_ID_CARD", text := "110101199003074514", start := 0, stop := 18,
             score := 1, source := "", verified := true, llm_reason := none }] }] =
      (10, "low") := by
  refine ⟨?_, rfl, ?_⟩
  · intro files h
    simp only [ReportGen.calculate_risk]
    rw [ReportGen.riskSum_eq_sum]
    rw [List.map_congr_left (fun fr hfr => congrArg List.sum
      (List.map_congr_left (fun e he => ReportGen.pyIntTrunc_eq_floor _
        (mul_nonneg (by exact_mod_cast (ReportGen.weightFor_pos e.entity_type).le)
          (h fr hfr e he)))))]
    exact min_comm _ _
  · have hs : ReportGen.riskSum
        [{ filename := "f", entities :=
            [{ entity_type := "CN_ID_CARD", text := "110101199003074514", start := 0, stop := 18,
               score := 1, source := "", verified := true, llm_reason := none }] }] = 10 := by
      rw [ReportGen.riskSum_eq_sum]
      norm_num [ReportGen.pyIntTrunc, show ReportGen.weightFor "CN_ID_CARD" = 10 from rfl]
    simp only [ReportGen.calculate_risk, hs]
    rw [min_eq_left (by norm_num : (10:ℤ) ≤ 100)]
    rfl

/-- Closed witness for `C7_amended_risk_formula`: one below-max file set
with a nonnegative score. -/
theorem C7_witness :
    (ReportGen.calculate_risk
      [{ filename := "a", entities :=
          [{ entity_type := "CN_PHONE", text := "13812345678", start := 0, stop := 11,
             score := (1:ℚ)/2, source := "", verified := false, llm_reason := none }] }]).1 =
      min 100 (([({ filename := "a", entities :=
          [{ entity_type := "CN_PHONE", text := "13812345678", start := 0, stop := 11,
             score := (1:ℚ)/2, source := "", verified := false, llm_reason := none }] } :
          ReportGen.FileResult)]).map (fun fr => (fr.entities.map
        (fun e => ⌊(ReportGen.weightFor e.entity_type : ℚ) * e.score⌋)).sum)).sum :=
  C7_amended_risk_formula.1
    [{ filename := "a", entities :=
        [{ entity_type := "CN_PHONE", text := "13812345678", start := 0, stop := 11,
           score := (1:ℚ)/2, source := "", verified := false, llm_reason := none }] }]
    (by
      intro fr hfr e he
      rw [List.mem_singleton.mp hfr] at he
      rw [List.mem_singleton.mp he]
      norm_num)

/-- C8: with nonnegative entity scores the computed risk score lies in
`[0, 100]`, and adding a further entity (any type, score in `[0,1]`)
never decreases it. -/
theorem C8_risk_clamped_monotone :
    ∀ files : List ReportGen.FileResult,
      (∀ fr ∈ files, ∀ e ∈ fr.entities, 0 ≤ e.score) →
      ∀ (name : String) (e : ReportGen.EntityInfo), 0 ≤ e.score → e.score ≤ 1 →
      0 ≤ (ReportGen.calculate_risk files).1 ∧
      (ReportGen.calculate_risk files).1 ≤ 100 ∧
      (ReportGen.calculate_risk files).1 ≤
        (ReportGen.calculate_risk (files ++ [{ filename := name, entities := [e] }])).1 := by
  intro files h name e he0 _
  have hsum : 0 ≤ ReportGen.riskSum files := by
    rw [ReportGen.riskSum_eq_sum]
    apply List.sum_nonneg
    intro x hx
    obtain ⟨fr, hfr, rfl⟩ := List.mem_map.1 hx
    apply List.sum_nonneg
    intro y hy
    obtain ⟨en, hen, rfl⟩ := List.mem_map.1 hy
    exact ReportGen.riskTerm_nonneg en (h fr hfr en hen)
  have happ : ReportGen.riskSum (files ++ [{ filename := name, entities := [e] }]) =
      ReportGen.riskSum files +
        ReportGen.pyIntTrunc ((ReportGen.weightFor e.entity_type : ℚ) * e.score) := by
    rw [ReportGen.riskSum_eq_sum, ReportGen.riskSum_eq_sum, List.map_append, List.sum_append]
    simp
  refine ⟨le_min hsum (by norm_num), min_le_right _ _, ?_⟩
  simp only [ReportGen.calculate_risk]
  have hmono : ReportGen.riskSum files ≤
      ReportGen.riskSum (files ++ [{ filename := name, entities := [e] }]) := by
    rw [happ]
    exact le_add_of_nonneg_right (ReportGen.riskTerm_nonneg e he0)
  exact min_le_min hmono le_rfl

/-- Closed witness for `C8_risk_clamped_monotone`. -/
theorem C8_witness :
    0 ≤ (ReportGen.calculate_risk
        [{ filename := "a", entities :=
            [{ entity_type := "CN_PHONE", text := "13812345678", start := 0, stop := 11,
               score := (1:ℚ)/2, source := "", verified := false, llm_reason := none }] }]).1 ∧
    (ReportGen.calculate_risk
        [{ filename := "a", entities :=
            [{ entity_type := "CN_PHONE", text := "13812345678", start := 0, stop := 11,
               score := (1:ℚ)/2, source := "", verified := false, llm_reason := none }] }]).1 ≤ 100 ∧
    (ReportGen.calculate_risk
        [{ filename := "a", entities :=
            [{ entity_type := "CN_PHONE", text := "13812345678", start := 0, stop := 11,
               score := (1:ℚ)/2, source := "", verified := false, llm_reason := none }] }]).1 ≤
      (ReportGen.calculate_risk
        ([{ filename := "a", entities :=
            [{ entity_type := "CN_PHONE", text := "13812345678", start := 0, stop := 11,
               score := (1:ℚ)/2, source := "", verified := false, llm_reason := none }] }] ++
         [{ filename := "b", entities :=
            [{ entity_type := "CN_ID_CARD", text := "110101199003074514", start := 0, stop := 18,
               score := 1, source := "", verified := true, llm_reason := none }] }])).1 :=
  C8_risk_clamped_monotone
    [{ filename := "a", entities :=
        [{ entity_type := "CN_PHONE", text := "13812345678", start := 0, stop := 11,
           score := (1:ℚ)/2, source := "", verified := false, llm_reason := none }] }]
    (by
      intro fr hfr e he
      rw [List.mem_singleton.mp hfr] at he
      rw [List.mem_singleton.mp he]
      norm_num)
    "b"
    { entity_type := "CN_ID_CARD", text := "110101199003074514", start := 0, stop := 18,
      score := 1, source := "", verified := true, llm_reason := none }
    (by norm_num) (by norm_num)

namespace CnBankCard

/-- The running index of the Luhn loop only matters modulo 2. -/
theorem luhnLoop_add_two (l : List ℕ) : ∀ i, luhnLoop l (i + 2) = luhnLoop l i := by
  induction l with
  | nil => intro i; rfl
  | cons d t ih =>
    intro i
    simp only [luhnLoop]
    rw [show i + 2 + 1 = i + 1 + 2 from by omega, ih (i + 1)]
    congr 1
    simp [luhnAdj, Nat.add_mod_right]

/-- The code's enumerated Luhn loop computes the specification's
two-at-a-time total over the digits read from the right. -/
theorem luhnLoop_eq_claimTotal : ∀ l : List ℕ, luhnLoop l 0 = luhnClaimTotal l
  | [] => rfl
  | [d] => by simp [luhnLoop, luhnClaimTotal, luhnAdj]
  | d :: e :: rest => by
    have ih := luhnLoop_eq_claimTotal rest
    simp only [luhnLoop, luhnClaimTotal]
    rw [show (0:ℕ) + 1 + 1 = 0 + 2 from rfl, luhnLoop_add_two rest 0, ih]
    simp only [luhnAdj]
    norm_num
    omega

end CnBankCard

/-- C3: the bank-card Luhn check succeeds exactly when doubling every
second digit from the right (subtracting 9 from doubles above 9) and
summing yields a multiple of 10; it accepts "4532015112830366" and
rejects "1234567890123456". -/
theorem C3_luhn_spec :
    (∀ s : List Char, (∀ c ∈ s, c.isDigit = true) →
      (CnBankCard.luhn_checksum s = true ↔
        CnBankCard.luhnClaimTotal ((s.map digitVal).reverse) % 10 = 0)) ∧
    CnBankCard.luhn_checksum "4532015112830366".toList = true ∧
    CnBankCard.luhn_checksum "1234567890123456".toList = false := by
  refine ⟨?_, by decide, by decide⟩
  intro s _
  unfold CnBankCard.luhn_checksum
  rw [CnBankCard.luhnLoop_eq_claimTotal]
  simp [beq_iff_eq]

/-- Closed witness for `C3_luhn_spec` at the reference accepted number. -/
theorem C3_witness :
    CnBankCard.luhn_checksum "4532015112830366".toList = true ↔
      CnBankCard.luhnClaimTotal (("4532015112830366".toList.map digitVal).reverse) % 10 = 0 :=
  C3_luhn_spec.1 "4532015112830366".toList (by decide)

/-- C2 (amended): a cleaned 18-character ID with a listed province code,
digit body and matching GB 11643-1999 checksum is Confirmed (`True`,
which the pattern recognizer maps to score 1.0); replacing only the final
checksum character by any character whose *uppercase* differs never
yields Confirmed.  (The uppercase proviso is forced: the recognizer
uppercases before validating, so the checksum `'X'` rewritten as `'x'`
still Confirms — see the counterexample.) -/
theorem C2_id_checksum :
    (∀ s : List Char,
      (CnIdCard.cleanId s).length = 18 →
      CnIdCard.VALID_PROVINCE_CODES.contains (String.mk ((CnIdCard.cleanId s).take 2)) = true →
      (∀ c ∈ (CnIdCard.cleanId s).take 17, c ∈ DIGIT_CHARS) →
      (CnIdCard.cleanId s).getD 17 ' ' =
        CnIdCard.CHECKSUM_MAP.getD (CnIdCard.weightedTotal (CnIdCard.cleanId s) % 11) ' ' →
      CnIdCard.validate_result s = some true) ∧
    (∀ (s : List Char) (c' : Char),
      (CnIdCard.cleanId s).length = 18 →
      CnIdCard.VALID_PROVINCE_CODES.contains (String.mk ((CnIdCard.cleanId s).take 2)) = true →
      (∀ c ∈ (CnIdCard.cleanId s).take 17, c ∈ DIGIT_CHARS) →
      (CnIdCard.cleanId s).getD 17 ' ' =
        CnIdCard.CHECKSUM_MAP.getD (CnIdCard.weightedTotal (CnIdCard.cleanId s) % 11) ' ' →
      c'.toUpper ≠ (CnIdCard.cleanId s).getD 17 ' ' →
      CnIdCard.validate_result ((CnIdCard.cleanId s).take 17 ++ [c']) ≠ some true) :=
  ⟨CnIdCard.validate_result_confirms,
   fun s c' h18 _ hdig hchk hne =>
     CnIdCard.validate_result_altered_checksum s c' h18 hdig hchk hne⟩

/-- C2 fails in full generality: for an ID whose checksum character is
`'X'`, replacing it by the *different* character `'x'` still Confirms,
because `validate_result` uppercases its input before checking. -/
theorem C2_counterexample :
    CnIdCard.validate_result "11010119900307002X".toList = some true ∧
    ('x' ≠ 'X') ∧
    CnIdCard.validate_result ("11010119900307002X".toList.take 17 ++ ['x']) = some true := by
  refine ⟨by decide, by decide, by decide⟩

/-- Closed witness for `C2_id_checksum` at the reference ID
`110101199003074514` with the checksum digit altered to `'5'`. -/
theorem C2_witness :
    CnIdCard.validate_result "110101199003074514".toList = some true ∧
    CnIdCard.validate_result
      ((CnIdCard.cleanId "110101199003074514".toList).take 17 ++ ['5']) ≠ some true := by
  have h := C2_id_checksum
  exact ⟨h.1 "110101199003074514".toList (by decide) (by decide) (by decide) (by decide),
         h.2 "110101199003074514".toList '5' (by decide) (by decide) (by decide) (by decide)
           (by decide)⟩
